import Mathlib

/-!
Shallow embedding of the KYC document-intelligence pipeline
(`ml_model.py`, `confidence_engine.py`, `app.py`, `fraud_intelligence.py`,
`fraud_detector.py`, `ocr_utils.py`).

Strings are modelled through their character lists; Python's float
arithmetic in the scoring heuristics is modelled exactly over `ℚ` with
`int()` as truncation toward zero.  Network-backed collaborators (the
SightEngine authenticity service, the OCR engine, PDF rendering) are
modelled as explicit inputs to the functions that consume them.
-/

namespace KycAi

/-! ### Character-list string primitives (Python `in`, `endswith`, `strip`, `lower`) -/

/-- Prefix test on character lists: `leadsWith p l` iff `p` is an initial
segment of `l` (empty `p` always succeeds, as in Python). -/
def leadsWith : List Char → List Char → Bool
  | [], _ => true
  | _ :: _, [] => false
  | a :: as, b :: bs => a = b && leadsWith as bs

/-- Substring occurrence on character lists, Python's `needle in hay`. -/
def occursIn (p : List Char) : List Char → Bool
  | [] => leadsWith p []
  | c :: t => leadsWith p (c :: t) || occursIn p t

/-- Python `needle in hay` on strings. -/
def isSubstrOf (needle hay : String) : Bool :=
  occursIn needle.data hay.data

/-- Python `s.endswith(suffix)`. -/
def endsWithStr (s suffixStr : String) : Bool :=
  leadsWith suffixStr.data.reverse s.data.reverse

/-- Python `s.lower()` (ASCII case folding, which is all the pipeline uses). -/
def toLowerStr (s : String) : String :=
  String.mk (s.data.map Char.toLower)

/-- Python `s.strip()` on a character list. -/
def trimChars (l : List Char) : List Char :=
  ((l.dropWhile Char.isWhitespace).reverse.dropWhile Char.isWhitespace).reverse

/-- Python `s.strip()`. -/
def strTrim (s : String) : String :=
  String.mk (trimChars s.data)

/-! ### The regular-expression shapes used by the pipeline -/

/-- ASCII word character, the `\w` class of the patterns below. -/
def isWordChar (c : Char) : Bool :=
  c.isAlphanum || c = '_'

/-- `re.match(r"^[A-Z]{5}[0-9]{4}[A-Z]$", s)`: full match of the PAN shape. -/
def panShape (s : String) : Bool :=
  s.data.length = 10 &&
    (s.data.take 5).all Char.isUpper &&
    ((s.data.drop 5).take 4).all Char.isDigit &&
    (s.data.drop 9).all Char.isUpper

/-- `re.match(r"\b\d{2}/\d{2}/\d{4}\b", s)`: anchored at the start of `s`
(`re.match`), ten shape characters, then a word boundary. -/
def dobShape (s : String) : Bool :=
  match s.data with
  | d1 :: d2 :: s1 :: m1 :: m2 :: s2 :: y1 :: y2 :: y3 :: y4 :: rest =>
    d1.isDigit && d2.isDigit && s1 = '/' && m1.isDigit && m2.isDigit && s2 = '/' &&
      y1.isDigit && y2.isDigit && y3.isDigit && y4.isDigit &&
      (match rest with
       | [] => true
       | c :: _ => !isWordChar c)
  | _ => false

/-- Scanner for the tail of `re.match(r"[^@]+@[^@]+\.[^@]+", s)`: looks for a
literal dot, not at the current head position already consumed, followed by a
character other than `@`, never crossing another `@`. -/
def emailDotScan : List Char → Bool
  | [] => false
  | c :: rest =>
    (c = '.' && (match rest with
                 | r :: _ => r ≠ '@'
                 | [] => false))
      || (c ≠ '@' && emailDotScan rest)

/-- After the `@` of the email pattern: at least one non-`@` character, then
`emailDotScan` for the mandatory `.` part. -/
def emailAfterAt : List Char → Bool
  | [] => false
  | c :: rest => c ≠ '@' && emailDotScan rest

/-- Before the `@` of the email pattern: skip further non-`@` characters until
the first `@`. -/
def emailSeekAt : List Char → Bool
  | [] => false
  | c :: rest => if c = '@' then emailAfterAt rest else emailSeekAt rest

/-- `re.match(r"[^@]+@[^@]+\.[^@]+", s)`: anchored prefix match of the email
shape used by the anomaly detector. -/
def emailShape (s : String) : Bool :=
  match s.data with
  | [] => false
  | c :: rest => c ≠ '@' && emailSeekAt rest

/-- `re.match(r"^\d{10}$", s)`: exactly ten digits. -/
def phoneShape (s : String) : Bool :=
  s.data.length = 10 && s.data.all Char.isDigit

/-! ### `ml_model.py` -/

/-- Python truthiness-plus-strip test `v and str(v).strip()` used when
counting filled fields. -/
def truthyFilled (v : String) : Bool :=
  v ≠ "" && strTrim v ≠ ""

/-- Number of fields whose value passes `truthyFilled`. -/
def filledCount (data : List (String × String)) : ℕ :=
  (data.filter (fun kv => truthyFilled kv.2)).length

/-- `calculate_completeness_score` (ml_model.py:9-16).  Python computes
`int((non_empty / total) * 100)`; the division is modelled exactly over `ℚ`
and `int` as floor (the quotient is nonnegative). -/
def calculate_completeness_score (data : List (String × String)) : ℕ :=
  if data = [] then 0
  else
    (Int.floor ((filledCount data : ℚ) / (data.length : ℚ) * 100)).toNat

/-- `detect_anomalies` (ml_model.py:22-46): independent per-field format
checks, run only on present keys, appended in source order. -/
def detect_anomalies (data : List (String × String)) : List String :=
  (match data.lookup "PAN Number" with
   | some v => if !panShape v then ["Invalid PAN format"] else []
   | none => []) ++
  (match data.lookup "Date of Birth" with
   | some v => if !dobShape v then ["Suspicious DOB format"] else []
   | none => []) ++
  (match data.lookup "Email" with
   | some v => if !emailShape v then ["Invalid Email format"] else []
   | none => []) ++
  (match data.lookup "Phone" with
   | some v => if !phoneShape v then ["Invalid Phone number"] else []
   | none => [])

/-- The record returned by `risk_classification`. -/
structure RiskAssessment where
  documentType : String
  completeness : String
  detectedAnomalies : List String
  riskLevel : String
  reason : String
  deriving DecidableEq, Repr

/-- `risk_classification` (ml_model.py:52-77). -/
def risk_classification (data : List (String × String)) (document_type : String) :
    RiskAssessment :=
  let completeness := calculate_completeness_score data
  let anomalies := detect_anomalies data
  let levelReason : String × String :=
    if completeness ≥ 80 ∧ anomalies = [] then
      ("Low", "Document appears complete and valid.")
    else if completeness ≥ 50 then
      ("Medium", "Partial or inconsistent data found.")
    else
      ("High", "Significant missing fields or invalid data patterns.")
  { documentType := document_type
    completeness := toString completeness ++ "%"
    detectedAnomalies := if anomalies = [] then ["None"] else anomalies
    riskLevel := levelReason.1
    reason := levelReason.2 }

/-! ### `confidence_engine.py` -/

/-- `compute_field_confidence` (confidence_engine.py:5-33): per-field score,
built in source order (base 60, verbatim bonus, PAN shape, DOB shape,
email heuristic, cap at 100); a falsy (empty) value scores 0. -/
def compute_field_confidence (structured_data : List (String × String))
    (extracted_text : String) : List (String × ℕ) :=
  let text := toLowerStr extracted_text
  structured_data.map fun kv =>
    if kv.2 = "" then (kv.1, 0)
    else
      let val := toLowerStr kv.2
      let score : ℕ := 60
      let score := score + (if isSubstrOf val text then 20 else 0)
      let score := score + (if panShape kv.2 then 15 else 0)
      let score := score + (if dobShape kv.2 then 10 else 0)
      let score := score + (if kv.2.data.contains '@' && kv.2.data.contains '.' then 10 else 0)
      (kv.1, min score 100)

/-! ### `app.py`: document classifier and dispatch -/

/-- Resume keyword list of `detect_document_type`. -/
def resume_keywords : List String :=
  ["education", "experience", "skills", "projects", "intern", "github",
   "linkedin", "bachelor", "engineer"]

/-- `detect_document_type` (app.py:91-101): priority rules over the lowered
text, guarded by `not text or len(text.strip()) < 10`. -/
def detect_document_type (text : String) : String :=
  if text = "" ∨ (strTrim text).data.length < 10 then "Unknown"
  else
    let t := toLowerStr text
    if isSubstrOf "income tax department" t || isSubstrOf "permanent account number" t then
      "PAN Card"
    else if isSubstrOf "aadhaar" t || isSubstrOf "uidai" t then
      "Aadhaar Card"
    else if resume_keywords.any (fun w => isSubstrOf w t) then
      "Resume"
    else
      "Unknown"

/-- The structured-data dispatch of the upload endpoint (app.py:187-195).
The PAN and resume extractors are separate source functions and are passed in
as parameters; the placeholder maps are transcribed literally. -/
def upload_structured_data (panExtract resumeExtract : String → List (String × String))
    (extracted_text : String) : List (String × String) :=
  let doc_type := detect_document_type extracted_text
  if doc_type = "PAN Card" then panExtract extracted_text
  else if doc_type = "Aadhaar Card" then
    [("Document", "Aadhaar Card"), ("Note", "Module pending.")]
  else if doc_type = "Resume" then resumeExtract extracted_text
  else [("Document", "Unknown")]

/-! ### `fraud_intelligence.py` -/

/-- Outcome of `analyze_image_sightengine` (fraud_intelligence.py:15-39), a
network-backed collaborator: either `{"status": "ok", "data": ...}` with the
response body rendered to a string, or `{"status": "error", "message": ...}`. -/
inductive SightEngineResult where
  | ok (data : String)
  | error (message : String)
  deriving DecidableEq, Repr

/-- The report built by `fraud_summary_report`.  `textFlags` is the
`text_analysis["flags"]` entry (empty list when the key is absent). -/
structure FraudReport where
  imageAnalysis : Option SightEngineResult
  textFlags : List String
  fraudScore : ℕ
  overallFraudRisk : String
  anomalies : List String
  note : String
  deriving DecidableEq, Repr

/-- Suspicious-keyword list of the text channel (fraud_intelligence.py:93). -/
def suspicious_keywords : List String :=
  ["fake", "edited", "template", "duplicate", "tampered"]

/-- `file_path.lower().endswith((".jpg", ".jpeg", ".png"))`. -/
def hasImageExt (p : String) : Bool :=
  [".jpg", ".jpeg", ".png"].any (fun e => endsWithStr (toLowerStr p) e)

/-- `fraud_summary_report` (fraud_intelligence.py:64-116).  The SightEngine
response is an explicit input; the sequential mutations of the report's
fields are threaded as shadowing lets (the note written on channel error at
line 90 is overwritten by the summary note of lines 109-114). -/
def fraud_summary_report (file_path : String) (imgResult : SightEngineResult)
    (extracted_text : String) : FraudReport :=
  let note := "OK"
  let step1 : ℕ × Option SightEngineResult × List String × String :=
    if hasImageExt file_path then
      match imgResult with
      | .ok data =>
        if isSubstrOf "manipulated" (toLowerStr data) || isSubstrOf "fake" (toLowerStr data) then
          (50, some imgResult, ["Possible tampering detected by image analysis"], note)
        else
          (0, some imgResult, [], note)
      | .error message => (0, some imgResult, [], message)
    else (0, none, [], note)
  let fraud_score := step1.1
  let note := step1.2.2.2
  let found_flags := suspicious_keywords.filter (fun w => isSubstrOf w (toLowerStr extracted_text))
  let fraud_score := fraud_score + (if found_flags = [] then 0 else 40)
  let anomalies := step1.2.2.1 ++
    found_flags.map (fun w => "Suspicious word found: \x27" ++ w ++ "\x27")
  let overall :=
    if fraud_score ≥ 70 then "High"
    else if fraud_score ≥ 40 then "Medium"
    else "Low"
  let note :=
    if fraud_score ≥ 70 then "High fraud likelihood. Requires manual verification."
    else if fraud_score ≥ 40 then "Moderate fraud indicators detected."
    else "No major anomalies found."
  { imageAnalysis := step1.2.1
    textFlags := found_flags
    fraudScore := min fraud_score 100
    overallFraudRisk := overall
    anomalies := anomalies
    note := note }

/-! ### `fraud_detector.py` -/

/-- Python `int()` on a rational: truncation toward zero. -/
def ratTrunc (q : ℚ) : ℤ :=
  if 0 ≤ q then ⌊q⌋ else ⌈q⌉

/-- The record returned by `detect_tampering`.  The perceptual-hash field is
produced by an external capability and used only for reporting, so it is not
part of the model. -/
structure TamperReport where
  fraudRisk : String
  tamperingConfidence : ℤ
  anomalies : List String
  deriving DecidableEq, Repr

/-- `detect_tampering` (fraud_detector.py:30-48) after a successful image
read: the edge density and brightness standard deviation computed by the
image pipeline are the inputs; the score is `min(100, int(e*500 + b))` and
the flags fire at `e > 0.15` and `b > 35`. -/
def detect_tampering (edge_density brightness_var : ℚ) : TamperReport :=
  let anomalies :=
    (if edge_density > 15 / 100 then ["High edge density (possible tampering)"] else []) ++
    (if brightness_var > 35 then ["Brightness variation suggests editing"] else [])
  let risk_score : ℤ := min 100 (ratTrunc (edge_density * 500 + brightness_var))
  let risk_label :=
    if risk_score < 40 then "Low"
    else if risk_score < 70 then "Medium"
    else "High"
  { fraudRisk := risk_label
    tamperingConfidence := risk_score
    anomalies := if anomalies = [] then ["No visual anomalies detected"] else anomalies }

/-! ### `ocr_utils.py`: text extraction -/

/-- Outcome of `process_page` for one PDF page (ocr_utils.py:113-140): either
the page's stripped text (fast path or OCR fallback, both delegated to
external capabilities), or the page-local exception caught at lines 138-140. -/
inductive PageOutcome where
  | ok (t : String)
  | err
  deriving DecidableEq, Repr

/-- The string `process_page` contributes to the page's result slot: its text
on success, the empty string when its exception handler fires. -/
def pageText : PageOutcome → String
  | .ok t => t
  | .err => ""

/-- What happens inside the big `try` of `extract_text`: the PDF branch with
its per-page outcomes, the single-image branch with the two OCR readings
(normal and polarity-inverted), or an unexpected exception caught at
lines 182-184. -/
inductive ExtractionBody where
  | pdfPages (pages : List PageOutcome)
  | image (normal_text inverted_text : String)
  | boom
  deriving DecidableEq, Repr

/-- Last path component (the part after the final `/`). -/
def lastComponent (l : List Char) : List Char :=
  l.foldl (fun acc c => if c = '/' then [] else acc ++ [c]) []

/-- `os.path.splitext(p)[1]`: the suffix of the last path component starting
at its last dot, provided some character before that dot is not itself a dot
(so dotfiles have no extension). -/
def splitextExt (p : String) : String :=
  let base := lastComponent p.data
  let idxs := (List.range base.length).filter fun i =>
    base.getD i ' ' = '.' && (base.take i).any (fun c => c ≠ '.')
  match idxs.getLast? with
  | some i => String.mk (base.drop i)
  | none => ""

/-- The extension allow-list of `extract_text` (ocr_utils.py:97). -/
def allowedExts : List String :=
  [".jpg", ".jpeg", ".png", ".pdf"]

/-- `re.sub(r'[^\x00-\x7F]+', '', text)`. -/
def asciiOnly (l : List Char) : List Char :=
  l.filter (fun c => c.toNat ≤ 127)

/-- Whitespace-separated words of a character list; `cur` accumulates the
current word in reverse. -/
def wordsGo : List Char → List Char → List (List Char)
  | [], cur => if cur.isEmpty then [] else [cur.reverse]
  | c :: t, cur =>
    if Char.isWhitespace c then
      if cur.isEmpty then wordsGo t [] else cur.reverse :: wordsGo t []
    else wordsGo t (c :: cur)

/-- The normalisation of ocr_utils.py:176-177: drop non-ASCII characters,
collapse whitespace runs to single spaces, strip. -/
def cleanText (s : String) : String :=
  String.intercalate " " ((wordsGo (asciiOnly s.data) []).map String.mk)

/-- The index-addressed reassembly of ocr_utils.py:111 and 143-147: a
pre-sized list of empty slots, each completed page written to its own index
in completion order. -/
def fillSlots (n : ℕ) (completions : List (ℕ × String)) : List String :=
  completions.foldl (fun acc p => acc.set p.1 p.2) (List.replicate n "")

/-- `extract_text` (ocr_utils.py:90-186).  The extension gate raises
(`Except.error`) before the body runs; the body merges the page slots with
single spaces (PDF), keeps the longer of the two OCR readings (image), or
degrades to `""` when the catch-all handler at lines 182-184 fires. -/
def extract_text (file_path : String) (body : ExtractionBody) : Except String String :=
  let ext := toLowerStr (splitextExt file_path)
  if ext ∉ allowedExts then
    .error ("Unsupported file type: " ++ ext)
  else
    .ok (match body with
      | .pdfPages pages => cleanText (String.intercalate " " (pages.map pageText))
      | .image normal_text inverted_text =>
        cleanText (if inverted_text.data.length < normal_text.data.length then normal_text
                   else inverted_text)
      | .boom => "")

/-! ### Shared helper lemmas -/

/-- The exact rational computation of `calculate_completeness_score` agrees
with natural-number floor division. -/
theorem completeness_eq (data : List (String × String)) :
    calculate_completeness_score data =
      if data = [] then 0 else filledCount data * 100 / data.length := by
  unfold calculate_completeness_score
  split
  · rfl
  · have h1 : (filledCount data : ℚ) / (data.length : ℚ) * 100
        = ((filledCount data * 100 : ℕ) : ℚ) / ((data.length : ℕ) : ℚ) := by
      push_cast
      ring
    rw [h1, Rat.floor_natCast_div_natCast, ← Int.natCast_div, Int.toNat_natCast]

/-! ### Claim C1 -/

/-- C1: for every structured-data map and document type, `risk_classification`
returns risk level "Low" exactly when completeness is at least 80 and the
anomaly list is empty, "Medium" when that fails but completeness is at least
50, and "High" otherwise, each paired with its fixed reason string; the quoted
numeric instances (85 with no anomalies, 65 with no anomalies, 30 with any
anomalies) are instances of this characterisation. -/
theorem risk_classification_characterization (data : List (String × String)) (dt : String) :
    (risk_classification data dt).riskLevel =
      (if calculate_completeness_score data ≥ 80 ∧ detect_anomalies data = [] then "Low"
       else if calculate_completeness_score data ≥ 50 then "Medium"
       else "High") ∧
    (risk_classification data dt).reason =
      (if calculate_completeness_score data ≥ 80 ∧ detect_anomalies data = [] then
         "Document appears complete and valid."
       else if calculate_completeness_score data ≥ 50 then
         "Partial or inconsistent data found."
       else "Significant missing fields or invalid data patterns.") := by
  simp only [risk_classification]
  refine ⟨?_, ?_⟩ <;> split_ifs <;> rfl

/-! ### Claim C4 -/

/-- C4: `calculate_completeness_score` returns 0 on the empty map, otherwise
the integer truncation of `(filled / total) * 100`; a 5-field map with 4
filled fields scores 80, and the score is monotone in the number of filled
fields at fixed total field count. -/
theorem calculate_completeness_score_spec :
    calculate_completeness_score [] = 0 ∧
    (∀ data : List (String × String), data ≠ [] →
      calculate_completeness_score data = filledCount data * 100 / data.length) ∧
    calculate_completeness_score
      [("Name", "JOHN DOE"), ("PAN Number", "ABCDE1234F"), ("Date of Birth", "01/01/1990"),
       ("Email", "j@x.in"), ("Phone", "")] = 80 ∧
    (∀ d1 d2 : List (String × String), d1.length = d2.length →
      filledCount d1 ≤ filledCount d2 →
      calculate_completeness_score d1 ≤ calculate_completeness_score d2) := by
  refine ⟨by rw [completeness_eq]; decide, ?_, by rw [completeness_eq]; decide, ?_⟩
  · intro data hdata
    rw [completeness_eq, if_neg hdata]
  · intro d1 d2 hlen hcount
    rw [completeness_eq, completeness_eq]
    by_cases h1 : d1 = []
    · rw [if_pos h1]
      exact Nat.zero_le _
    · have h2 : d2 ≠ [] := by
        intro h
        apply h1
        rw [h] at hlen
        exact List.length_eq_zero.mp hlen
      rw [if_neg h1, if_neg h2, hlen]
      exact Nat.div_le_div_right (Nat.mul_le_mul_right _ hcount)

/-- Witness for C4: concrete instantiations of both quantified conjuncts. -/
theorem calculate_completeness_score_spec_witness :
    calculate_completeness_score [("A", "x"), ("B", "")]
      = filledCount [("A", "x"), ("B", "")] * 100
          / ([("A", "x"), ("B", "")] : List (String × String)).length ∧
    calculate_completeness_score [("A", "")] ≤ calculate_completeness_score [("A", "y")] :=
  ⟨calculate_completeness_score_spec.2.1 _ (by decide),
   calculate_completeness_score_spec.2.2.2 _ _ (by decide) (by decide)⟩

/-! ### Claim C3 -/

/-- C3 counterexample: a whitespace-only value is truthy in the source
(`if not value` only catches the empty string), so the field " " scores 60,
not the 0 the claim requires for whitespace-only values. -/
theorem compute_field_confidence_whitespace_cex :
    compute_field_confidence [("Name", " ")] "" = [("Name", 60)] ∧
    strTrim " " = "" ∧ (60 : ℕ) ≠ 0 := by decide

/-- C3 (amended): every field scores in [0,100]; an EMPTY value scores
exactly 0, and every other value (including whitespace-only ones) scores
`min(100, 60 + 20*[verbatim in text] + 15*[PAN shape] + 10*[DOB shape]
+ 10*[contains both @ and .])`. -/
theorem compute_field_confidence_spec :
    (∀ (data : List (String × String)) (text : String),
      compute_field_confidence data text = data.map (fun kv =>
        (kv.1,
          if kv.2 = "" then 0
          else min 100 (60 + (if isSubstrOf (toLowerStr kv.2) (toLowerStr text) then 20 else 0)
            + (if panShape kv.2 then 15 else 0)
            + (if dobShape kv.2 then 10 else 0)
            + (if kv.2.data.contains '@' && kv.2.data.contains '.' then 10 else 0))))) ∧
    (∀ (data : List (String × String)) (text : String) (p : String × ℕ),
      p ∈ compute_field_confidence data text → p.2 ≤ 100) := by
  have key : ∀ (data : List (String × String)) (text : String),
      compute_field_confidence data text = data.map (fun kv =>
        (kv.1,
          if kv.2 = "" then 0
          else min 100 (60 + (if isSubstrOf (toLowerStr kv.2) (toLowerStr text) then 20 else 0)
            + (if panShape kv.2 then 15 else 0)
            + (if dobShape kv.2 then 10 else 0)
            + (if kv.2.data.contains '@' && kv.2.data.contains '.' then 10 else 0)))) := by
    intro data text
    unfold compute_field_confidence
    refine List.map_congr_left ?_
    intro kv _
    by_cases h : kv.2 = "" <;> simp [h, Nat.min_comm]
  refine ⟨key, ?_⟩
  intro data text p hp
  rw [key] at hp
  obtain ⟨kv, _, rfl⟩ := List.mem_map.mp hp
  dsimp only
  split
  · exact Nat.zero_le _
  · exact Nat.min_le_left _ _

/-- Witness for C3: the amended rule evaluated on a concrete email-shaped
field absent from the source text. -/
theorem compute_field_confidence_spec_witness :
    compute_field_confidence [("Email", "a@b.c")] "" = [("Email", 70)] ∧
    (("Email", 70) : String × ℕ).2 ≤ 100 :=
  ⟨(compute_field_confidence_spec.1 [("Email", "a@b.c")] "").trans (by decide),
   compute_field_confidence_spec.2 [("Email", "a@b.c")] "" ("Email", 70) (by decide)⟩

/-! ### Claim C5 -/

/-- C5 counterexample: a text containing both "aadhaar" and "skills" together
with a PAN phrase classifies as "PAN Card", not "Aadhaar Card"; and the guard
uses the STRIPPED length, so a raw-length-10 text containing "aadhaar" is
"Unknown" where the claim requires "Aadhaar Card". -/
theorem detect_document_type_cex :
    detect_document_type "income tax department aadhaar skills" = "PAN Card" ∧
    isSubstrOf "aadhaar" (toLowerStr "income tax department aadhaar skills") = true ∧
    isSubstrOf "skills" (toLowerStr "income tax department aadhaar skills") = true ∧
    detect_document_type " aadhaar  " = "Unknown" ∧
    (" aadhaar  " : String).data.length = 10 ∧
    isSubstrOf "aadhaar" (toLowerStr " aadhaar  ") = true := by decide

/-- C5 (amended): the rules run in fixed priority order on the lowered text,
but the initial guard compares the STRIPPED length with 10, and the
aadhaar-before-skills precedence holds only when no PAN phrase is present:
stripped length < 10 gives "Unknown"; otherwise a PAN phrase gives
"PAN Card"; otherwise "aadhaar" or "uidai" (so in particular "aadhaar"
together with "skills") gives "Aadhaar Card"; otherwise a resume keyword
gives "Resume"; otherwise "Unknown". -/
theorem detect_document_type_spec :
    (∀ text : String, (strTrim text).data.length < 10 →
      detect_document_type text = "Unknown") ∧
    (∀ text : String, 10 ≤ (strTrim text).data.length →
      (isSubstrOf "income tax department" (toLowerStr text)
        || isSubstrOf "permanent account number" (toLowerStr text)) = true →
      detect_document_type text = "PAN Card") ∧
    (∀ text : String, 10 ≤ (strTrim text).data.length →
      isSubstrOf "income tax department" (toLowerStr text) = false →
      isSubstrOf "permanent account number" (toLowerStr text) = false →
      (isSubstrOf "aadhaar" (toLowerStr text)
        || isSubstrOf "uidai" (toLowerStr text)) = true →
      detect_document_type text = "Aadhaar Card") ∧
    (∀ text : String, 10 ≤ (strTrim text).data.length →
      isSubstrOf "income tax department" (toLowerStr text) = false →
      isSubstrOf "permanent account number" (toLowerStr text) = false →
      isSubstrOf "aadhaar" (toLowerStr text) = false →
      isSubstrOf "uidai" (toLowerStr text) = false →
      resume_keywords.any (fun w => isSubstrOf w (toLowerStr text)) = true →
      detect_document_type text = "Resume") ∧
    (∀ text : String, 10 ≤ (strTrim text).data.length →
      isSubstrOf "income tax department" (toLowerStr text) = false →
      isSubstrOf "permanent account number" (toLowerStr text) = false →
      isSubstrOf "aadhaar" (toLowerStr text) = false →
      isSubstrOf "uidai" (toLowerStr text) = false →
      resume_keywords.any (fun w => isSubstrOf w (toLowerStr text)) = false →
      detect_document_type text = "Unknown") := by
  have hguard : ∀ text : String, 10 ≤ (strTrim text).data.length →
      ¬(text = "" ∨ (strTrim text).data.length < 10) := by
    intro text hlen hor
    rcases hor with rfl | hlt
    · have h0 : (strTrim "").data.length = 0 := by decide
      omega
    · omega
  refine ⟨?_, ?_, ?_, ?_, ?_⟩
  · intro text hlen
    unfold detect_document_type
    rw [if_pos (Or.inr hlen)]
  · intro text hlen hpan
    unfold detect_document_type
    rw [if_neg (hguard text hlen)]
    simp only [hpan, if_true]
  · intro text hlen h1 h2 ha
    unfold detect_document_type
    rw [if_neg (hguard text hlen)]
    simp only [h1, h2, ha, Bool.false_or, Bool.true_or, if_false, if_true]
    rfl
  · intro text hlen h1 h2 ha hu hr
    unfold detect_document_type
    rw [if_neg (hguard text hlen)]
    simp only [h1, h2, ha, hu, hr, Bool.false_or, if_false, if_true]
    rfl
  · intro text hlen h1 h2 ha hu hr
    unfold detect_document_type
    rw [if_neg (hguard text hlen)]
    simp only [h1, h2, ha, hu, hr, Bool.false_or, if_false]
    rfl

/-- Witness for C5: a text containing "aadhaar" and "skills" but no PAN
phrase classifies as "Aadhaar Card", and so does a text containing "uidai"
alone (no "aadhaar"). -/
theorem detect_document_type_spec_witness :
    detect_document_type "aadhaar card listing skills" = "Aadhaar Card" ∧
    detect_document_type "uidai issued identity card" = "Aadhaar Card" :=
  ⟨detect_document_type_spec.2.2.1 "aadhaar card listing skills"
      (by decide) (by decide) (by decide) (by decide),
   detect_document_type_spec.2.2.1 "uidai issued identity card"
      (by decide) (by decide) (by decide) (by decide)⟩

/-! ### Claim C10 -/

/-- C10: whenever the classifier returns "Unknown" on non-empty extracted
text, or returns "Aadhaar Card", the upload pipeline substitutes a fixed
placeholder map whose values are all non-empty, so completeness is 100, no
anomaly fires, and the risk level is necessarily "Low". -/
theorem upload_placeholder_low_risk
    (panExtract resumeExtract : String → List (String × String)) (text : String)
    (h : (detect_document_type text = "Unknown" ∧ text ≠ "")
      ∨ detect_document_type text = "Aadhaar Card") :
    calculate_completeness_score (upload_structured_data panExtract resumeExtract text) = 100 ∧
    detect_anomalies (upload_structured_data panExtract resumeExtract text) = [] ∧
    (risk_classification (upload_structured_data panExtract resumeExtract text)
      (detect_document_type text)).riskLevel = "Low" := by
  have hsd : upload_structured_data panExtract resumeExtract text = [("Document", "Unknown")]
      ∨ upload_structured_data panExtract resumeExtract text
          = [("Document", "Aadhaar Card"), ("Note", "Module pending.")] := by
    unfold upload_structured_data
    rcases h with ⟨h1, _⟩ | h1 <;> rw [h1]
    · left
      rfl
    · right
      rfl
  rcases hsd with h2 | h2 <;> rw [h2] <;>
    exact ⟨by rw [completeness_eq]; decide, by decide,
      by simp only [risk_classification, completeness_eq]; decide⟩

/-- Witness for C10: a concrete Aadhaar-classified text with trivial
extractors. -/
theorem upload_placeholder_low_risk_witness :
    calculate_completeness_score
      (upload_structured_data (fun _ => []) (fun _ => []) "this is an aadhaar document") = 100 ∧
    detect_anomalies
      (upload_structured_data (fun _ => []) (fun _ => []) "this is an aadhaar document") = [] ∧
    (risk_classification
      (upload_structured_data (fun _ => []) (fun _ => []) "this is an aadhaar document")
      (detect_document_type "this is an aadhaar document")).riskLevel = "Low" :=
  upload_placeholder_low_risk (fun _ => []) (fun _ => []) "this is an aadhaar document"
    (Or.inr (by decide))

/-! ### Claim C2 -/

/-- Whether a successful SightEngine response textually indicates manipulation
or fakeness (fraud_intelligence.py:84-86); a failed response never does. -/
def sightengineFlagsFake : SightEngineResult → Bool
  | .ok data => isSubstrOf "manipulated" (toLowerStr data) || isSubstrOf "fake" (toLowerStr data)
  | .error _ => false

/-- A filtered list is empty exactly when no element satisfies the predicate. -/
theorem filter_nil_iff_any_false (l : List String) (p : String → Bool) :
    (l.filter p = []) ↔ (l.any p = false) := by
  induction l with
  | nil => simp
  | cons a t ih => by_cases hpa : p a <;> simp [hpa, ih]

/-- C2: the fraud score is `min(100, s)` where `s` adds exactly 50 when the
image channel flags manipulation or fakeness (image extensions only) and
exactly 40 when at least one suspicious keyword occurs in the lowered text
(once, not per keyword); the matched keywords are all listed; and the tier is
"High" for score at least 70, "Medium" for at least 40, else "Low". -/
theorem fraud_summary_report_spec (fp : String) (img : SightEngineResult) (txt : String) :
    (fraud_summary_report fp img txt).fraudScore =
      min 100 ((if hasImageExt fp && sightengineFlagsFake img then 50 else 0) +
        (if suspicious_keywords.any (fun w => isSubstrOf w (toLowerStr txt)) then 40 else 0)) ∧
    (fraud_summary_report fp img txt).textFlags =
      suspicious_keywords.filter (fun w => isSubstrOf w (toLowerStr txt)) ∧
    (fraud_summary_report fp img txt).overallFraudRisk =
      (if 70 ≤ (fraud_summary_report fp img txt).fraudScore then "High"
       else if 40 ≤ (fraud_summary_report fp img txt).fraudScore then "Medium"
       else "Low") := by
  have hflags : ∀ hb : (suspicious_keywords.any fun w => isSubstrOf w (toLowerStr txt)) = false,
      suspicious_keywords.filter (fun w => isSubstrOf w (toLowerStr txt)) = [] :=
    fun hb => (filter_nil_iff_any_false _ _).mpr hb
  have hflagsNe : ∀ hb : (suspicious_keywords.any fun w => isSubstrOf w (toLowerStr txt)) = true,
      suspicious_keywords.filter (fun w => isSubstrOf w (toLowerStr txt)) ≠ [] := by
    intro hb hh
    rw [(filter_nil_iff_any_false _ _).mp hh] at hb
    cases hb
  cases img with
  | ok d =>
    by_cases himg : hasImageExt fp = true <;>
      by_cases hfk : (isSubstrOf "manipulated" (toLowerStr d)
        || isSubstrOf "fake" (toLowerStr d)) = true <;>
      by_cases hb : (suspicious_keywords.any fun w => isSubstrOf w (toLowerStr txt)) = true <;>
      simp only [Bool.not_eq_true] at himg hfk hb <;>
      first
        | (simp [fraud_summary_report, sightengineFlagsFake, himg, hfk, hb, hflagsNe hb,
            Nat.min_comm])
        | (simp [fraud_summary_report, sightengineFlagsFake, himg, hfk, hb, hflags hb,
            Nat.min_comm])
  | error m =>
    by_cases himg : hasImageExt fp = true <;>
      by_cases hb : (suspicious_keywords.any fun w => isSubstrOf w (toLowerStr txt)) = true <;>
      simp only [Bool.not_eq_true] at himg hb <;>
      first
        | (simp [fraud_summary_report, sightengineFlagsFake, himg, hb, hflagsNe hb,
            Nat.min_comm])
        | (simp [fraud_summary_report, sightengineFlagsFake, himg, hb, hflags hb,
            Nat.min_comm])
/-! ### Claim C7 -/

/-- C7 counterexample: at edge density 0 and brightness standard deviation
39.7 the source computes `int(39.7) = 39` (risk "Low"), while the claimed
`round(...)` gives 40 (which would be "Medium"). -/
theorem detect_tampering_round_cex :
    (detect_tampering 0 (397 / 10)).tamperingConfidence = 39 ∧
    (detect_tampering 0 (397 / 10)).fraudRisk = "Low" ∧
    round ((0 : ℚ) * 500 + 397 / 10) = 40 ∧
    (39 : ℤ) ≠ 40 := by
  have hscore : (detect_tampering 0 (397 / 10)).tamperingConfidence = 39 := by
    simp only [detect_tampering, ratTrunc]
    norm_num
  refine ⟨hscore, ?_, by norm_num [round_eq], by decide⟩
  simp only [detect_tampering, ratTrunc]
  norm_num

/-- C7 (amended): for nonnegative edge density and brightness standard
deviation, the score is `int(edge_density * 500 + brightness_std)` — the
TRUNCATION, not the rounding, of the sum — capped at 100; the risk label is
"Low" below 40, "Medium" below 70, "High" otherwise; and an anomaly flag is
raised exactly when edge density exceeds 0.15 or the brightness standard
deviation exceeds 35. -/
theorem detect_tampering_spec (e b : ℚ) (he : 0 ≤ e) (hb : 0 ≤ b) :
    (detect_tampering e b).tamperingConfidence = min 100 ⌊e * 500 + b⌋ ∧
    ((detect_tampering e b).fraudRisk =
      if (detect_tampering e b).tamperingConfidence < 40 then "Low"
      else if (detect_tampering e b).tamperingConfidence < 70 then "Medium"
      else "High") ∧
    ((detect_tampering e b).anomalies ≠ ["No visual anomalies detected"]
      ↔ (15 / 100 < e ∨ 35 < b)) := by
  have hq : 0 ≤ e * 500 + b := by positivity
  refine ⟨?_, ?_, ?_⟩
  · simp only [detect_tampering, ratTrunc, if_pos hq]
  · simp only [detect_tampering]
  · simp only [detect_tampering]
    by_cases h1 : 15 / 100 < e <;> by_cases h2 : 35 < b <;>
      simp [h1, h2]

/-- Witness for C7: the amended statement at edge density 0.1 and brightness
standard deviation 20. -/
theorem detect_tampering_spec_witness :
    (detect_tampering (1 / 10) 20).tamperingConfidence = min 100 ⌊(1 / 10 : ℚ) * 500 + 20⌋ ∧
    ((detect_tampering (1 / 10) 20).fraudRisk =
      if (detect_tampering (1 / 10) 20).tamperingConfidence < 40 then "Low"
      else if (detect_tampering (1 / 10) 20).tamperingConfidence < 70 then "Medium"
      else "High") ∧
    ((detect_tampering (1 / 10) 20).anomalies ≠ ["No visual anomalies detected"]
      ↔ ((15 / 100 : ℚ) < 1 / 10 ∨ (35 : ℚ) < 20)) :=
  detect_tampering_spec (1 / 10) 20 (by norm_num) (by norm_num)

/-! ### Claim C8 -/

/-- C8 counterexample: with a failed authenticity channel the fraud score is
indeed not increased, but the returned note is the generic summary note — the
unavailability message written at fraud_intelligence.py:90 is unconditionally
overwritten by lines 108-114 and does not survive into the note field. -/
theorem fraud_note_overwrite_cex :
    (fraud_summary_report "doc.jpg"
      (.error "SightEngine API keys missing or not set.") "").fraudScore = 0 ∧
    (fraud_summary_report "doc.jpg"
      (.error "SightEngine API keys missing or not set.") "").note
        = "No major anomalies found." ∧
    isSubstrOf "unavailab" "No major anomalies found." = false ∧
    isSubstrOf "missing" "No major anomalies found." = false ∧
    isSubstrOf "SightEngine" "No major anomalies found." = false := by decide

/-- C8 (amended): when the authenticity channel fails on an image input, the
fraud score is not increased on account of that channel (it equals the score
of a clean successful response, i.e. just the text-channel contribution); the
failure message is preserved in the report's image-analysis section, but the
returned note is one of the two generic summary notes, not an explanation of
the channel's unavailability. -/
theorem fraud_channel_failure_spec (fp msg txt : String) (h : hasImageExt fp = true) :
    (fraud_summary_report fp (.error msg) txt).fraudScore =
      (fraud_summary_report fp (.ok "") txt).fraudScore ∧
    (fraud_summary_report fp (.error msg) txt).fraudScore =
      (if suspicious_keywords.any (fun w => isSubstrOf w (toLowerStr txt)) then 40 else 0) ∧
    (fraud_summary_report fp (.error msg) txt).imageAnalysis = some (.error msg) ∧
    ((fraud_summary_report fp (.error msg) txt).note = "Moderate fraud indicators detected." ∨
     (fraud_summary_report fp (.error msg) txt).note = "No major anomalies found.") := by
  have e1 : isSubstrOf "manipulated" (toLowerStr "") = false := by decide
  have e2 : isSubstrOf "fake" (toLowerStr "") = false := by decide
  by_cases hb : (suspicious_keywords.any fun w => isSubstrOf w (toLowerStr txt)) = true
  · have hfe : suspicious_keywords.filter (fun w => isSubstrOf w (toLowerStr txt)) ≠ [] := by
      intro hh
      rw [(filter_nil_iff_any_false _ _).mp hh] at hb
      cases hb
    simp [fraud_summary_report, h, hb, hfe, e1, e2]
  · simp only [Bool.not_eq_true] at hb
    have hfe : suspicious_keywords.filter (fun w => isSubstrOf w (toLowerStr txt)) = [] :=
      (filter_nil_iff_any_false _ _).mpr hb
    simp [fraud_summary_report, h, hb, hfe, e1, e2]

/-- Witness for C8: concrete failed-channel report on an image path. -/
theorem fraud_channel_failure_spec_witness :
    (fraud_summary_report "doc.jpg" (.error "API request failed: boom") "").fraudScore =
      (fraud_summary_report "doc.jpg" (.ok "") "").fraudScore ∧
    (fraud_summary_report "doc.jpg" (.error "API request failed: boom") "").fraudScore =
      (if suspicious_keywords.any (fun w => isSubstrOf w (toLowerStr "")) then 40 else 0) ∧
    (fraud_summary_report "doc.jpg" (.error "API request failed: boom") "").imageAnalysis
      = some (.error "API request failed: boom") ∧
    ((fraud_summary_report "doc.jpg" (.error "API request failed: boom") "").note
        = "Moderate fraud indicators detected." ∨
     (fraud_summary_report "doc.jpg" (.error "API request failed: boom") "").note
        = "No major anomalies found.") :=
  fraud_channel_failure_spec "doc.jpg" "API request failed: boom" "" (by decide)

/-! ### Claim C9 -/

/-- Whether an `extract_text` outcome is the raised unsupported-format
error. -/
def isError : Except String String → Bool
  | .error _ => true
  | .ok _ => false

/-- C9: `extract_text` raises exactly when the lowered extension is outside
the allow-list, and that decision is independent of everything that happens
in the body; a single page's OCR failure is equivalent to that page having
produced the empty string, with sibling pages untouched; and an unexpected
exception in the body degrades to empty merged text instead of
propagating. -/
theorem extract_text_spec :
    (∀ (fp : String) (body : ExtractionBody),
      isError (extract_text fp body) = true ↔ toLowerStr (splitextExt fp) ∉ allowedExts) ∧
    (∀ (fp : String) (b1 b2 : ExtractionBody),
      isError (extract_text fp b1) = isError (extract_text fp b2)) ∧
    (∀ (fp : String) (pages : List PageOutcome) (i : ℕ),
      extract_text fp (.pdfPages (pages.set i .err))
        = extract_text fp (.pdfPages (pages.set i (.ok "")))) ∧
    (∀ fp : String, toLowerStr (splitextExt fp) ∈ allowedExts →
      extract_text fp .boom = .ok "") := by
  refine ⟨?_, ?_, ?_, ?_⟩
  · intro fp body
    by_cases hm : toLowerStr (splitextExt fp) ∈ allowedExts <;>
      simp [extract_text, isError, hm]
  · intro fp b1 b2
    by_cases hm : toLowerStr (splitextExt fp) ∈ allowedExts <;>
      simp [extract_text, isError, hm]
  · intro fp pages i
    have hpages : (pages.set i PageOutcome.err).map pageText
        = (pages.set i (PageOutcome.ok "")).map pageText := by
      rw [List.map_set, List.map_set]
      rfl
    simp only [extract_text, hpages]
  · intro fp hm
    simp [extract_text, hm]

/-- Witness for C9: concrete instantiations of all four conjuncts. -/
theorem extract_text_spec_witness :
    isError (extract_text "uploads/d.txt" .boom) = true ∧
    extract_text "uploads/d.pdf" .boom = .ok "" ∧
    extract_text "uploads/d.pdf"
        (.pdfPages ([PageOutcome.ok "a", PageOutcome.ok "b"].set 1 .err))
      = extract_text "uploads/d.pdf"
        (.pdfPages ([PageOutcome.ok "a", PageOutcome.ok "b"].set 1 (.ok ""))) :=
  ⟨(extract_text_spec.1 "uploads/d.txt" .boom).mpr (by decide),
   extract_text_spec.2.2.2 "uploads/d.pdf" (by decide),
   extract_text_spec.2.2.1 "uploads/d.pdf" [PageOutcome.ok "a", PageOutcome.ok "b"] 1⟩

/-! ### Claim C6 -/

/-- Writing completed pages into their slots never changes the slot-list
length. -/
theorem fillSlots_foldl_length (l : List (ℕ × String)) (acc : List String) :
    (l.foldl (fun a p => a.set p.1 p.2) acc).length = acc.length := by
  induction l generalizing acc with
  | nil => rfl
  | cons p t ih => rw [List.foldl_cons, ih, List.length_set]

/-- A slot no completion targets keeps its initial content. -/
theorem foldl_set_getElem?_of_not_mem (l : List (ℕ × String)) (acc : List String) (j : ℕ)
    (hj : j ∉ l.map Prod.fst) :
    (l.foldl (fun a p => a.set p.1 p.2) acc)[j]? = acc[j]? := by
  induction l generalizing acc with
  | nil => rfl
  | cons p t ih =>
    simp only [List.map_cons, List.mem_cons, not_or] at hj
    rw [List.foldl_cons, ih _ hj.2, List.getElem?_set_ne (Ne.symm hj.1)]

/-- With pairwise-distinct target indices, a slot some completion targets
holds exactly that completion's text. -/
theorem foldl_set_getElem?_of_mem (l : List (ℕ × String)) (acc : List String) (j : ℕ)
    (s : String) (hnd : (l.map Prod.fst).Nodup) (hmem : (j, s) ∈ l) (hj : j < acc.length) :
    (l.foldl (fun a p => a.set p.1 p.2) acc)[j]? = some s := by
  induction l generalizing acc with
  | nil => cases hmem
  | cons p t ih =>
    rw [List.foldl_cons]
    rw [List.map_cons] at hnd
    rcases List.mem_cons.mp hmem with heq | hmemt
    · cases heq.symm
      have hhead := (List.nodup_cons.mp hnd).1
      rw [foldl_set_getElem?_of_not_mem t _ j hhead]
      simp [List.getElem?_set_self, hj]
    · exact ih (acc.set p.1 p.2) (List.nodup_cons.mp hnd).2
        hmemt (by rw [List.length_set]; exact hj)

/-- C6: for every list of per-page results and every completion order that is
a permutation of the indexed page results, the index-addressed reassembly of
`extract_text` reproduces the page results in index order, so the merged text
(single-space join, ocr_utils.py:150) is independent of completion order. -/
theorem extract_text_page_order_invariance (results : List String)
    (order : List (ℕ × String)) (h : order.Perm results.enum) :
    fillSlots results.length order = results ∧
    String.intercalate " " (fillSlots results.length order)
      = String.intercalate " " results := by
  have hnd : (order.map Prod.fst).Nodup :=
    (h.map Prod.fst).nodup_iff.mpr (List.nodup_enum_map_fst results)
  have hmain : fillSlots results.length order = results := by
    unfold fillSlots
    apply List.ext_getElem?
    intro j
    by_cases hj : j < results.length
    · have hmem : (j, results[j]) ∈ results.enum := by
        rw [List.mk_mem_enum_iff_getElem?]
        exact List.getElem?_eq_getElem hj
      rw [foldl_set_getElem?_of_mem order (List.replicate results.length "") j _ hnd
        (h.mem_iff.mpr hmem) (by rw [List.length_replicate]; exact hj)]
      exact (List.getElem?_eq_getElem hj).symm
    · push_neg at hj
      have hlen : (order.foldl (fun a p => a.set p.1 p.2)
          (List.replicate results.length "")).length = results.length := by
        rw [fillSlots_foldl_length, List.length_replicate]
      rw [List.getElem?_eq_none (hlen.trans_le hj), List.getElem?_eq_none hj]
  exact ⟨hmain, by rw [hmain]⟩

/-- Witness for C6: a two-page document whose second page completes first. -/
theorem extract_text_page_order_invariance_witness :
    fillSlots (["page one", "page two"] : List String).length [(1, "page two"), (0, "page one")]
      = ["page one", "page two"] ∧
    String.intercalate " "
        (fillSlots (["page one", "page two"] : List String).length
          [(1, "page two"), (0, "page one")])
      = String.intercalate " " ["page one", "page two"] :=
  extract_text_page_order_invariance ["page one", "page two"]
    [(1, "page two"), (0, "page one")] (by decide)

end KycAi
